import Mathlib

/-!
Shallow embedding of the waypoint generator of the `avoidance` local planner
(`src/local_planner/src/nodes/waypoint_generator.cpp`, declarations from
`src/local_planner/src/nodes/common.h`), together with theorems settling the
frozen claims about it.

Vectors (`Eigen::Vector3f` / `Eigen::Vector2f`) are modelled over the reals.
Eigen's `normalized()` / `normalize()` (version 3.3 and later, as used by this
repository) guard the zero vector: they return the vector unchanged when its
squared norm is zero; the embedding mirrors that guard.  Wall-clock readings
taken during one tick are modelled by a single per-tick time value.  Helper
functions whose implementation is not under `src/` (only their declaration or
call sites are) are modelled from the spec and marked as such in their doc
comments.
-/

namespace Avoidance

/-- The six waypoint modes of the state machine (`waypoint_choice` enum). -/
inductive WaypointType where
  | hover
  | costmap
  | tryPath
  | direct
  | reachHeight
  | goBack
deriving DecidableEq

/-- 3D vector over the reals, modelling `Eigen::Vector3f`. -/
structure Vec3 where
  x : ℝ
  y : ℝ
  z : ℝ

/-- 2D vector over the reals, modelling `Eigen::Vector2f`. -/
structure Vec2 where
  x : ℝ
  y : ℝ

instance : Add Vec3 := ⟨fun a b => ⟨a.x + b.x, a.y + b.y, a.z + b.z⟩⟩

instance : Sub Vec3 := ⟨fun a b => ⟨a.x - b.x, a.y - b.y, a.z - b.z⟩⟩

instance : SMul ℝ Vec3 := ⟨fun c v => ⟨c * v.x, c * v.y, c * v.z⟩⟩

instance : Add Vec2 := ⟨fun a b => ⟨a.x + b.x, a.y + b.y⟩⟩

instance : Sub Vec2 := ⟨fun a b => ⟨a.x - b.x, a.y - b.y⟩⟩

instance : SMul ℝ Vec2 := ⟨fun c v => ⟨c * v.x, c * v.y⟩⟩

/-- Eigen `squaredNorm()` for 3D vectors. -/
def Vec3.sqNorm (v : Vec3) : ℝ := v.x ^ 2 + v.y ^ 2 + v.z ^ 2

/-- Eigen `norm()` for 3D vectors. -/
noncomputable def Vec3.norm (v : Vec3) : ℝ := Real.sqrt v.sqNorm

/-- Eigen `normalized()` / in-place `normalize()` for 3D vectors (Eigen 3.3
semantics: the zero vector is returned unchanged instead of dividing by a
zero norm). -/
noncomputable def Vec3.normalized (v : Vec3) : Vec3 :=
  if 0 < v.sqNorm then ⟨v.x / v.norm, v.y / v.norm, v.z / v.norm⟩ else v

/-- Eigen `cwiseAbs()` for 3D vectors. -/
def Vec3.cwiseAbs (v : Vec3) : Vec3 := ⟨|v.x|, |v.y|, |v.z|⟩

/-- Eigen `squaredNorm()` for 2D vectors. -/
def Vec2.sqNorm (v : Vec2) : ℝ := v.x ^ 2 + v.y ^ 2

/-- Eigen `norm()` for 2D vectors. -/
noncomputable def Vec2.norm (v : Vec2) : ℝ := Real.sqrt v.sqNorm

/-- Eigen `normalized()` for 2D vectors (same zero-vector guard as `Vec3`). -/
noncomputable def Vec2.normalized (v : Vec2) : Vec2 :=
  if 0 < v.sqNorm then ⟨v.x / v.norm, v.y / v.norm⟩ else v

/-- Componentwise division of a 2D vector by a scalar (Eigen `v / c`). -/
noncomputable def Vec2.divs (v : Vec2) (c : ℝ) : Vec2 := ⟨v.x / c, v.y / c⟩

/-- `geometry_msgs::PoseStamped` reduced to the data the generator consumes
and produces: a position and a yaw angle. -/
structure PoseMsg where
  position : Vec3
  yaw : ℝ

/-- `geometry_msgs::Twist` reduced to linear velocity and yaw rate. -/
structure TwistMsg where
  linear : Vec3
  angular_z : ℝ

/-- The `avoidanceOutput` directive supplied by the upstream planner
(`setPlannerInfo`), restricted to the fields the waypoint generator reads. -/
structure AvoidanceOutput where
  waypoint_type : WaypointType
  obstacle_ahead : Bool
  reach_altitude : Bool
  min_speed : ℝ
  max_speed : ℝ
  velocity_sigmoid_slope : ℝ
  costmap_direction_e : ℝ
  costmap_direction_z : ℝ
  pose_position : Vec3
  back_off_point : Vec3
  back_off_start_point : Vec3
  last_path_time : ℝ
  offboard_pose_position : Vec3

/-- The `param_` configuration block read by `withinGoalRadius` and
`adaptSpeed`. -/
structure ModelParams where
  goal_acceptance_radius_in : ℝ
  goal_acceptance_radius_out : ℝ
  factor_close_to_goal_start_speed_limitation : ℝ
  factor_close_to_goal_stop_speed_limitation : ℝ
  max_speed_close_to_goal_factor : ℝ
  min_speed_close_to_goal : ℝ

/-- Static configuration of the generator: `param_`, the jerk limit
parameters, and the histogram angular resolution `ALPHA_RES` (an integer
constant whose definition is not under `src/`; kept as a parameter). -/
structure Config where
  param : ModelParams
  max_jerk_limit_param : ℝ
  min_jerk_limit_param : ℝ
  alpha_res : ℤ

/-- The `waypointResult output_` struct rebuilt every tick. -/
structure WaypointResult where
  waypoint_type : WaypointType
  goto_position : Vec3
  adapted_goto_position : Vec3
  smoothed_goto_position : Vec3
  position_waypoint : PoseMsg
  velocity_waypoint : TwistMsg

/-- The mutable member state of `WaypointGenerator`. -/
structure WGState where
  pose_position : Vec3
  curr_yaw : ℝ
  goal : Vec3
  curr_vel : Vec3
  curr_vel_magnitude : ℝ
  z_FOV_idx : List ℤ
  update_time : ℝ
  planner_info : AvoidanceOutput
  output : WaypointResult
  last_time : ℝ
  current_time : ℝ
  velocity_time : ℝ
  last_wp_type : WaypointType
  last_position_waypoint : PoseMsg
  last_yaw : ℝ
  last_velocity : Vec2
  hover_position : Vec3
  reached_goal : Bool
  limit_speed_close_to_goal : Bool
  yaw_reached_goal : ℝ
  speed : ℝ
  waypoint_outside_FOV : Bool
  only_yawed : Bool
  new_yaw : ℝ

/-- Input of one `updateState` call.  The orientation quaternion is consumed
by the generator only through `tf::getYaw` and `calculateFOV` (both
implemented outside `src/`), so the yaw and the resulting visible azimuth
index set are supplied directly as inputs. -/
structure UpdateInput where
  act_pose_position : Vec3
  act_pose_yaw : ℝ
  goal_position : Vec3
  vel_linear : Vec3
  stay : Bool
  t : ℝ
  fov_idx : List ℤ

/-- Modelled from the spec: the result of `getDirectionFromTree`
(`planner_functions`, not under `src/`): whether a direction was extractable
from the path nodes, and the extracted elevation/azimuth direction.  Supplied
as an abstract input of the tick. -/
structure TreeQuery where
  available : Bool
  p_x : ℝ
  p_y : ℝ

/-- Modelled from the spec: `velocityLinear` (declared in `common.h`, its
implementation is not under `src/`): a monotone saturating ramp of the old
speed toward the upper bound `max_vel`, parameterized by the elapsed time. -/
noncomputable def velocityLinear (max_vel slope v_old elapsed : ℝ) : ℝ :=
  min (v_old + slope * elapsed) max_vel

/-- Modelled from the spec: `fromPolarToCartesian` (not under `src/`):
origin plus radius times the direction given by the elevation angle measured
from the horizontal plane and the azimuth angle measured from the positive
y-axis, both in degrees. -/
noncomputable def fromPolarToCartesian (e z radius : ℝ) (pos : Vec3) : Vec3 :=
  ⟨pos.x + radius * Real.cos (e * Real.pi / 180) * Real.sin (z * Real.pi / 180),
   pos.y + radius * Real.cos (e * Real.pi / 180) * Real.cos (z * Real.pi / 180),
   pos.z + radius * Real.sin (e * Real.pi / 180)⟩

/-- Modelled from the spec: `azimuthAnglefromCartesian` (declared in
`common.h`, implementation not under `src/`): the bearing of `position` seen
from `origin`, in degrees from the positive y-axis, in the interval
(-180, 180], and 0 when the two points coincide. -/
noncomputable def azimuthAnglefromCartesian (position origin : Vec3) : ℝ :=
  (180 / Real.pi) * Complex.arg ⟨position.y - origin.y, position.x - origin.x⟩

/-- C-style truncation toward zero of a real number, modelling the implicit
`float` to `int` conversion at the `int z_angle = ...` call site. -/
noncomputable def truncToInt (x : ℝ) : ℤ := if 0 ≤ x then ⌊x⌋ else ⌈x⌉

/-- Modelled from the spec: `azimuthAngletoIndex` (declared in `common.h`,
implementation not under `src/`): floor the azimuth angle into a histogram
bucket of width `res` degrees, wrapping the +180 seam onto -180, and
returning index 0 for an out-of-range angle or an invalid resolution. -/
noncomputable def azimuthAngletoIndex (z : ℝ) (res : ℤ) : ℤ :=
  if res ≤ 0 ∨ 360 % res ≠ 0 ∨ z < -180 ∨ 180 < z then 0
  else
    let zw := if z = 180 then -180 else z
    ⌊(zw + 180) / (res : ℝ)⌋

/-- Modelled from the spec: `nextYaw` (declared in `common.h`, implementation
not under `src/`): the bearing from the current position to a target point,
in radians, wrapped to (-pi, pi]. -/
noncomputable def nextYaw (pos : Vec3) (v : Vec3) : ℝ :=
  Complex.arg ⟨v.x - pos.x, v.y - pos.y⟩

/-- Modelled from the spec: `wrapAngleToPlusMinusPI` (declared in `common.h`,
implementation not under `src/`): wrap an angle into (-pi, pi]. -/
noncomputable def wrapAngleToPlusMinusPI (a : ℝ) : ℝ :=
  a - 2 * Real.pi * ⌈(a - Real.pi) / (2 * Real.pi)⌉

/-- Modelled from the spec: `getAngularVelocity` (declared in `common.h`,
implementation not under `src/`): a proportional yaw-rate command on the
wrapped yaw error. -/
noncomputable def getAngularVelocity (desired_yaw curr_yaw : ℝ) : ℝ :=
  0.5 * wrapAngleToPlusMinusPI (desired_yaw - curr_yaw)

/-- Modelled from the spec: `createPoseMsg` (declared in `common.h`,
implementation not under `src/`): assemble a position-plus-yaw pose. -/
def createPoseMsg (waypt : Vec3) (yaw : ℝ) : PoseMsg := ⟨waypt, yaw⟩

/-- `WaypointGenerator::updateState` (waypoint_generator.cpp lines 96-127):
reset the two sticky flags when the goal moved by more than 0.1, overwrite
the per-tick vehicle state, and force the stored directive's mode to `hover`
when the hold-in-place boolean is set. -/
noncomputable def updateState (s : WGState) (inp : UpdateInput) : WGState :=
  let goal_changed := (s.goal - inp.goal_position).norm > 0.1
  { s with
    reached_goal := if goal_changed then false else s.reached_goal,
    limit_speed_close_to_goal :=
      if goal_changed then false else s.limit_speed_close_to_goal,
    update_time := inp.t,
    pose_position := inp.act_pose_position,
    curr_vel := inp.vel_linear,
    goal := inp.goal_position,
    curr_yaw := inp.act_pose_yaw,
    z_FOV_idx := inp.fov_idx,
    curr_vel_magnitude := inp.vel_linear.norm,
    planner_info :=
      if inp.stay then { s.planner_info with waypoint_type := .hover }
      else s.planner_info }

/-- `WaypointGenerator::transformPositionToVelocityWaypoint`
(waypoint_generator.cpp lines 161-171). -/
noncomputable def transformPositionToVelocityWaypoint (s : WGState) : WGState :=
  { s with output := { s.output with velocity_waypoint :=
      ⟨s.output.position_waypoint.position - s.pose_position,
       getAngularVelocity s.new_yaw s.curr_yaw⟩ } }

/-- `WaypointGenerator::withinGoalRadius` (waypoint_generator.cpp lines
174-188) as a state transformer; the function's boolean return value is the
updated `reached_goal_` flag. -/
noncomputable def withinGoalRadiusState (cfg : Config) (s : WGState) : WGState :=
  let sqrd_dist := (s.goal - s.pose_position).sqNorm
  if sqrd_dist <
      cfg.param.goal_acceptance_radius_in * cfg.param.goal_acceptance_radius_in then
    { s with
      yaw_reached_goal :=
        if s.reached_goal = false then s.curr_yaw else s.yaw_reached_goal,
      reached_goal := true }
  else if sqrd_dist >
      cfg.param.goal_acceptance_radius_out * cfg.param.goal_acceptance_radius_out then
    { s with reached_goal := false }
  else s

/-- The `dt` computation of `WaypointGenerator::getPathMsg`
(waypoint_generator.cpp line 349): use the measured tick interval when it is
positive, and the fixed default 0.004 s otherwise. -/
noncomputable def computeDt (delta : ℝ) : ℝ := if delta > 0 then delta else 0.004

/-- The base speed envelope of `WaypointGenerator::adaptSpeed`
(waypoint_generator.cpp lines 254-264): clamp the previous speed to the bound
selected by the obstacle flag and ramp it toward that bound. -/
noncomputable def baseSpeedEnvelope (pi : AvoidanceOutput) (speed elapsed : ℝ) : ℝ :=
  if pi.obstacle_ahead = false then
    velocityLinear pi.max_speed pi.velocity_sigmoid_slope
      (min speed pi.max_speed) elapsed
  else
    velocityLinear pi.min_speed pi.velocity_sigmoid_slope
      (min speed pi.min_speed) elapsed

/-- The `ind_dist` loop of `WaypointGenerator::adaptSpeed`
(waypoint_generator.cpp lines 278-286): smallest absolute index difference to
any visible azimuth index, starting from 100. -/
def nearestIndexDist (idxs : List ℤ) (z_index : ℤ) : ℤ :=
  idxs.foldl (fun d i => if |i - z_index| < d then |i - z_index| else d) 100

/-- Result of the field-of-view check of `adaptSpeed`: the possibly rescaled
speed and the two flags it writes. -/
structure FovScaleResult where
  speed : ℝ
  waypoint_outside_FOV : Bool
  only_yawed : Bool

/-- The field-of-view block of `WaypointGenerator::adaptSpeed`
(waypoint_generator.cpp lines 272-296): if the candidate azimuth index is
visible, clear the outside-FOV flag; otherwise, once altitude is reached and
the goal is not, scale the speed down with the capped angular distance to the
nearest visible index and derive the yaw-only flag. -/
noncomputable def fovSpeedScale (cfg : Config) (idxs : List ℤ) (z_index : ℤ)
    (reach_altitude reached_goal : Bool) (speed : ℝ) (only_yawed : Bool) :
    FovScaleResult :=
  if z_index ∈ idxs then
    ⟨speed, false, only_yawed⟩
  else if reach_altitude = true ∧ reached_goal = false then
    let ind_dist := nearestIndexDist idxs z_index
    let angle_diff : ℝ := |((cfg.alpha_res * ind_dist : ℤ) : ℝ)|
    let angle_diff := min angle_diff 30
    let speed' := speed * (1 - angle_diff / 30)
    ⟨speed', true, if speed' < 0.01 then true else false⟩
  else
    ⟨speed, true, only_yawed⟩

/-- `WaypointGenerator::adaptSpeed` (waypoint_generator.cpp lines 250-342):
base speed envelope, field-of-view slowdown, delay compensation,
close-to-goal hysteresis and limiting, and the final rescaling of the step
from the current position toward the adapted goal point.  The wall-clock
reads inside the function are modelled by the tick time `current_time`. -/
noncomputable def adaptSpeed (cfg : Config) (s : WGState) : WGState :=
  let since_last_velocity_sec := s.current_time - s.velocity_time
  let speed1 := baseSpeedEnvelope s.planner_info s.speed since_last_velocity_sec
  let z_angle : ℤ :=
    truncToInt (azimuthAnglefromCartesian s.output.adapted_goto_position s.pose_position)
  let z_index := azimuthAngletoIndex (z_angle : ℝ) cfg.alpha_res
  let fov := fovSpeedScale cfg s.z_FOV_idx z_index s.planner_info.reach_altitude
    s.reached_goal speed1 s.only_yawed
  let since_update_sec := s.current_time - s.update_time
  let delta_dist := since_update_sec * s.curr_vel_magnitude
  let speed2 := fov.speed + delta_dist
  let pos_to_goal := (s.goal - s.pose_position).cwiseAbs
  let limit' :=
    if pos_to_goal.x <
        cfg.param.factor_close_to_goal_start_speed_limitation * s.curr_vel_magnitude ∧
       pos_to_goal.y <
        cfg.param.factor_close_to_goal_start_speed_limitation * s.curr_vel_magnitude then
      true
    else if pos_to_goal.x >
        cfg.param.factor_close_to_goal_stop_speed_limitation * s.curr_vel_magnitude ∨
       pos_to_goal.y >
        cfg.param.factor_close_to_goal_stop_speed_limitation * s.curr_vel_magnitude then
      false
    else s.limit_speed_close_to_goal
  let speed3 :=
    if limit' = true then
      max (min speed2 (cfg.param.max_speed_close_to_goal_factor * pos_to_goal.norm))
        cfg.param.min_speed_close_to_goal
    else speed2
  let pose_to_wp := s.output.adapted_goto_position - s.pose_position
  let pose_to_wp := if pose_to_wp.norm > 0.01 then pose_to_wp.normalized else pose_to_wp
  let pose_to_wp := speed3 • pose_to_wp
  { s with
    speed := speed3,
    waypoint_outside_FOV := fov.waypoint_outside_FOV,
    only_yawed := fov.only_yawed,
    velocity_time := s.current_time,
    limit_speed_close_to_goal := limit',
    output := { s.output with
      adapted_goto_position := s.pose_position + pose_to_wp } }

/-- The setpoint velocity of `WaypointGenerator::smoothWaypoint`
(waypoint_generator.cpp lines 216-221): implied velocity from the previous
commanded position to the adapted goal point. -/
noncomputable def velSpXY (s : WGState) (dt : ℝ) : Vec2 :=
  ⟨(s.output.adapted_goto_position.x - s.last_position_waypoint.position.x) / dt,
   (s.output.adapted_goto_position.y - s.last_position_waypoint.position.y) / dt⟩

/-- The current acceleration re-derived by `smoothWaypoint`
(waypoint_generator.cpp line 224). -/
noncomputable def accelCur (s : WGState) (dt : ℝ) : Vec2 :=
  ((⟨s.curr_vel.x, s.curr_vel.y⟩ - s.last_velocity : Vec2)).divs dt

/-- The raw jerk delta of `smoothWaypoint` (waypoint_generator.cpp lines
223-225), before any clamping. -/
noncomputable def rawJerkDiff (s : WGState) (dt : ℝ) : Vec2 :=
  (((velSpXY s dt - ⟨s.curr_vel.x, s.curr_vel.y⟩ : Vec2)).divs dt
    - accelCur s dt).divs dt

/-- The maximum jerk bound computed by `smoothWaypoint`
(waypoint_generator.cpp lines 226-232): the configured maximum, scaled by the
current horizontal speed and floored at the configured minimum when the
minimum is above 0.001. -/
noncomputable def computedMaxJerk (cfg : Config) (vel_cur_xy : Vec2) : ℝ :=
  if cfg.min_jerk_limit_param > 0.001 then
    let mj := cfg.max_jerk_limit_param * vel_cur_xy.norm
    if mj < cfg.min_jerk_limit_param then cfg.min_jerk_limit_param else mj
  else cfg.max_jerk_limit_param

/-- `WaypointGenerator::smoothWaypoint` (waypoint_generator.cpp lines
213-248): clamp the jerk delta when it exceeds the computed bound and the
bound is above the 0.001 activation threshold, re-integrate, and write the
smoothed horizontal position with the adapted vertical component. -/
noncomputable def smoothWaypoint (cfg : Config) (s : WGState) (dt : ℝ) : WGState :=
  let vel_cur_xy : Vec2 := ⟨s.curr_vel.x, s.curr_vel.y⟩
  let jerk_diff := rawJerkDiff s dt
  let max_jerk := computedMaxJerk cfg vel_cur_xy
  let vel_sp_xy :=
    if jerk_diff.sqNorm > max_jerk * max_jerk ∧ max_jerk > 0.001 then
      let jerk_diff := max_jerk • jerk_diff.normalized
      dt • (dt • jerk_diff + accelCur s dt) + vel_cur_xy
    else velSpXY s dt
  { s with output := { s.output with smoothed_goto_position :=
      ⟨s.last_position_waypoint.position.x + vel_sp_xy.x * dt,
       s.last_position_waypoint.position.y + vel_sp_xy.y * dt,
       s.output.adapted_goto_position.z⟩ } }

/-- `WaypointGenerator::reachGoalAltitudeFirst` (waypoint_generator.cpp lines
191-211): command the offboard hold position at a modest climb, suppress yaw
change when the goal lies overhead, and limit the step to the directive's
minimum speed. -/
noncomputable def reachGoalAltitudeFirst (s : WGState) : WGState :=
  let goto : Vec3 :=
    ⟨s.planner_info.offboard_pose_position.x,
     s.planner_info.offboard_pose_position.y,
     s.pose_position.z + 0.5⟩
  let diff := (s.goal - s.pose_position).cwiseAbs
  let new_yaw' := if diff.x < 1 ∧ diff.y < 1 then s.curr_yaw else s.new_yaw
  let pose_to_wp := goto - s.pose_position
  let pose_to_wp := if pose_to_wp.norm > 0.01 then pose_to_wp.normalized else pose_to_wp
  let pose_to_wp := s.planner_info.min_speed • pose_to_wp
  { s with
    new_yaw := new_yaw',
    output := { s.output with goto_position := s.pose_position + pose_to_wp } }

/-- The tail of `WaypointGenerator::getPathMsg` (waypoint_generator.cpp lines
371-386): goal-radius hysteresis with target and yaw pinning, and assembly of
the final position and velocity waypoints. -/
noncomputable def assembleOutput (cfg : Config) (s : WGState) : WGState :=
  let s := withinGoalRadiusState cfg s
  let s :=
    if s.reached_goal = true then
      { s with output := { s.output with smoothed_goto_position := s.goal } }
    else s
  let s := if s.reached_goal = true then { s with new_yaw := s.yaw_reached_goal } else s
  let pw := createPoseMsg s.output.smoothed_goto_position s.new_yaw
  let s := { s with output := { s.output with position_waypoint := pw } }
  transformPositionToVelocityWaypoint s

/-- `WaypointGenerator::getPathMsg` (waypoint_generator.cpp lines 345-386):
speed adaptation, altitude-first override or jerk-limited smoothing, then the
output assembly of `assembleOutput`. -/
noncomputable def getPathMsg (cfg : Config) (s : WGState) : WGState :=
  let s := { s with output :=
    { s.output with adapted_goto_position := s.output.goto_position } }
  let dt := computeDt (s.current_time - s.last_time)
  let s := { s with new_yaw := nextYaw s.pose_position s.output.adapted_goto_position }
  let s := adaptSpeed cfg s
  let s := { s with output :=
    { s.output with smoothed_goto_position := s.output.adapted_goto_position } }
  let s :=
    if s.planner_info.reach_altitude = false then
      let s := reachGoalAltitudeFirst s
      { s with output := { s.output with
          adapted_goto_position := s.output.goto_position,
          smoothed_goto_position := s.output.goto_position } }
    else smoothWaypoint cfg s dt
  assembleOutput cfg s

/-- `WaypointGenerator::goFast` (waypoint_generator.cpp lines 130-139): unit
step along the normalized direction to the goal, then `getPathMsg`. -/
noncomputable def goFast (cfg : Config) (s : WGState) : WGState :=
  let dir := (s.goal - s.pose_position).normalized
  let s := { s with output :=
    { s.output with goto_position := s.pose_position + dir } }
  getPathMsg cfg s

/-- `WaypointGenerator::backOff` (waypoint_generator.cpp lines 141-159):
half-unit horizontal step away from the back-off point, altitude held at the
back-off start point, with the pose finalized directly in this stage. -/
noncomputable def backOff (s : WGState) : WGState :=
  let dir := s.pose_position - s.planner_info.back_off_point
  let dir : Vec3 := ⟨dir.x, dir.y, 0⟩
  let dir := dir.normalized
  let dir := (0.5 : ℝ) • dir
  let goto := s.pose_position + dir
  let goto : Vec3 := ⟨goto.x, goto.y, s.planner_info.back_off_start_point.z⟩
  let s := { s with output := { s.output with
      goto_position := goto,
      position_waypoint := createPoseMsg goto s.last_yaw } }
  let s := transformPositionToVelocityWaypoint s
  { s with last_yaw := s.curr_yaw }

/-- `WaypointGenerator::calculateWaypoint` (waypoint_generator.cpp lines
14-89): per-tick mode dispatch.  `t_now` models the tick's wall-clock
reading; `tree` models the result of the `getDirectionFromTree` call. -/
noncomputable def calculateWaypoint (cfg : Config) (s : WGState) (t_now : ℝ)
    (tree : TreeQuery) : WGState :=
  let s := { s with output :=
    { s.output with waypoint_type := s.planner_info.waypoint_type } }
  let s := { s with last_time := s.current_time, current_time := t_now }
  let s :=
    match s.planner_info.waypoint_type with
    | .hover =>
        let s :=
          if s.last_wp_type ≠ .hover then { s with hover_position := s.pose_position }
          else s
        let s := { s with output :=
          { s.output with goto_position := s.hover_position } }
        getPathMsg cfg s
    | .costmap =>
        let p := fromPolarToCartesian s.planner_info.costmap_direction_e
          s.planner_info.costmap_direction_z 1 s.planner_info.pose_position
        let s := { s with output := { s.output with goto_position := p } }
        getPathMsg cfg s
    | .tryPath =>
        let dist_goal := (s.goal - s.pose_position).norm
        let since_last_path := t_now - s.planner_info.last_path_time
        if tree.available = true ∧
            (s.planner_info.obstacle_ahead = true ∨ dist_goal > 4) ∧
            since_last_path < 5 then
          let p := fromPolarToCartesian tree.p_x tree.p_y 1 s.planner_info.pose_position
          let s := { s with output := { s.output with goto_position := p } }
          getPathMsg cfg s
        else
          let s := goFast cfg s
          { s with output := { s.output with waypoint_type := .direct } }
    | .direct => goFast cfg s
    | .reachHeight => goFast cfg s
    | .goBack => backOff s
  { s with
    last_wp_type := s.planner_info.waypoint_type,
    last_position_waypoint := s.output.position_waypoint,
    last_yaw := s.curr_yaw,
    last_velocity := ⟨s.curr_vel.x, s.curr_vel.y⟩ }

/-- `WaypointGenerator::getWaypoints` (waypoint_generator.cpp lines 388-391):
run the tick and return the output message. -/
noncomputable def getWaypoints (cfg : Config) (s : WGState) (t_now : ℝ)
    (tree : TreeQuery) : WGState × WaypointResult :=
  let s := calculateWaypoint cfg s t_now tree
  (s, s.output)

/-! ### Preservation lemmas

Fields a stage never writes are unchanged by it; these lemmas let the claim
proofs walk the per-tick composition. -/

theorem adaptSpeed_goal (cfg : Config) (s : WGState) :
    (adaptSpeed cfg s).goal = s.goal := rfl

theorem adaptSpeed_planner_info (cfg : Config) (s : WGState) :
    (adaptSpeed cfg s).planner_info = s.planner_info := rfl

theorem adaptSpeed_pose (cfg : Config) (s : WGState) :
    (adaptSpeed cfg s).pose_position = s.pose_position := rfl

theorem adaptSpeed_reached_goal (cfg : Config) (s : WGState) :
    (adaptSpeed cfg s).reached_goal = s.reached_goal := rfl

theorem adaptSpeed_yaw_reached_goal (cfg : Config) (s : WGState) :
    (adaptSpeed cfg s).yaw_reached_goal = s.yaw_reached_goal := rfl

theorem adaptSpeed_goto (cfg : Config) (s : WGState) :
    (adaptSpeed cfg s).output.goto_position = s.output.goto_position := rfl

theorem adaptSpeed_wptype (cfg : Config) (s : WGState) :
    (adaptSpeed cfg s).output.waypoint_type = s.output.waypoint_type := rfl

theorem smoothWaypoint_goal (cfg : Config) (s : WGState) (dt : ℝ) :
    (smoothWaypoint cfg s dt).goal = s.goal := rfl

theorem smoothWaypoint_planner_info (cfg : Config) (s : WGState) (dt : ℝ) :
    (smoothWaypoint cfg s dt).planner_info = s.planner_info := rfl

theorem smoothWaypoint_reached_goal (cfg : Config) (s : WGState) (dt : ℝ) :
    (smoothWaypoint cfg s dt).reached_goal = s.reached_goal := rfl

theorem smoothWaypoint_yaw_reached_goal (cfg : Config) (s : WGState) (dt : ℝ) :
    (smoothWaypoint cfg s dt).yaw_reached_goal = s.yaw_reached_goal := rfl

theorem smoothWaypoint_goto (cfg : Config) (s : WGState) (dt : ℝ) :
    (smoothWaypoint cfg s dt).output.goto_position = s.output.goto_position := rfl

theorem smoothWaypoint_wptype (cfg : Config) (s : WGState) (dt : ℝ) :
    (smoothWaypoint cfg s dt).output.waypoint_type = s.output.waypoint_type := rfl

theorem reachGoalAltitudeFirst_goal (s : WGState) :
    (reachGoalAltitudeFirst s).goal = s.goal := rfl

theorem reachGoalAltitudeFirst_planner_info (s : WGState) :
    (reachGoalAltitudeFirst s).planner_info = s.planner_info := rfl

theorem reachGoalAltitudeFirst_reached_goal (s : WGState) :
    (reachGoalAltitudeFirst s).reached_goal = s.reached_goal := rfl

theorem reachGoalAltitudeFirst_yaw_reached_goal (s : WGState) :
    (reachGoalAltitudeFirst s).yaw_reached_goal = s.yaw_reached_goal := rfl

theorem reachGoalAltitudeFirst_wptype (s : WGState) :
    (reachGoalAltitudeFirst s).output.waypoint_type = s.output.waypoint_type := rfl

theorem transformPositionToVelocityWaypoint_position_waypoint (s : WGState) :
    (transformPositionToVelocityWaypoint s).output.position_waypoint =
      s.output.position_waypoint := rfl

theorem withinGoalRadiusState_goal (cfg : Config) (s : WGState) :
    (withinGoalRadiusState cfg s).goal = s.goal := by
  simp only [withinGoalRadiusState]
  split_ifs <;> rfl

theorem withinGoalRadiusState_output (cfg : Config) (s : WGState) :
    (withinGoalRadiusState cfg s).output = s.output := by
  simp only [withinGoalRadiusState]
  split_ifs <;> rfl

theorem withinGoalRadiusState_planner_info (cfg : Config) (s : WGState) :
    (withinGoalRadiusState cfg s).planner_info = s.planner_info := by
  simp only [withinGoalRadiusState]
  split_ifs <;> rfl

/-! ### Componentwise vector arithmetic -/

@[simp] theorem Vec3.add_x (a b : Vec3) : (a + b).x = a.x + b.x := rfl

@[simp] theorem Vec3.add_y (a b : Vec3) : (a + b).y = a.y + b.y := rfl

@[simp] theorem Vec3.add_z (a b : Vec3) : (a + b).z = a.z + b.z := rfl

@[simp] theorem Vec3.sub_x (a b : Vec3) : (a - b).x = a.x - b.x := rfl

@[simp] theorem Vec3.sub_y (a b : Vec3) : (a - b).y = a.y - b.y := rfl

@[simp] theorem Vec3.sub_z (a b : Vec3) : (a - b).z = a.z - b.z := rfl

@[simp] theorem Vec3.smul_x (c : ℝ) (v : Vec3) : (c • v).x = c * v.x := rfl

@[simp] theorem Vec3.smul_y (c : ℝ) (v : Vec3) : (c • v).y = c * v.y := rfl

@[simp] theorem Vec3.smul_z (c : ℝ) (v : Vec3) : (c • v).z = c * v.z := rfl

@[simp] theorem Vec3.mk_eta (v : Vec3) : (⟨v.x, v.y, v.z⟩ : Vec3) = v := rfl

@[simp] theorem Vec2.p2_add_x (a b : Vec2) : (a + b).x = a.x + b.x := rfl

@[simp] theorem Vec2.p2_add_y (a b : Vec2) : (a + b).y = a.y + b.y := rfl

@[simp] theorem Vec2.p2_sub_x (a b : Vec2) : (a - b).x = a.x - b.x := rfl

@[simp] theorem Vec2.p2_sub_y (a b : Vec2) : (a - b).y = a.y - b.y := rfl

@[simp] theorem Vec2.p2_smul_x (c : ℝ) (v : Vec2) : (c • v).x = c * v.x := rfl

@[simp] theorem Vec2.p2_smul_y (c : ℝ) (v : Vec2) : (c • v).y = c * v.y := rfl

@[simp] theorem Vec2.divs_x (v : Vec2) (c : ℝ) : (v.divs c).x = v.x / c := rfl

@[simp] theorem Vec2.divs_y (v : Vec2) (c : ℝ) : (v.divs c).y = v.y / c := rfl

/-- A vector supported on the horizontal plane normalizes componentwise once
its horizontal square sum is positive. -/
theorem Vec3.normalized_xy (a b : ℝ) (h : 0 < a ^ 2 + b ^ 2) :
    (⟨a, b, 0⟩ : Vec3).normalized =
      ⟨a / Real.sqrt (a ^ 2 + b ^ 2), b / Real.sqrt (a ^ 2 + b ^ 2), 0⟩ := by
  have hs : (⟨a, b, 0⟩ : Vec3).sqNorm = a ^ 2 + b ^ 2 := by
    simp [Vec3.sqNorm]
  rw [Vec3.normalized, Vec3.norm, hs, if_pos h]
  simp

/-- The zero vector is left unchanged by normalization (the Eigen guard). -/
theorem Vec3.normalized_zero : (⟨0, 0, 0⟩ : Vec3).normalized = ⟨0, 0, 0⟩ := by
  rw [Vec3.normalized, if_neg]
  simp [Vec3.sqNorm]

/-! ### Concrete instances used by witnesses and counterexamples -/

/-- A concrete directive used to instantiate witnesses and counterexamples. -/
noncomputable def basePlannerInfo : AvoidanceOutput where
  waypoint_type := .direct
  obstacle_ahead := false
  reach_altitude := true
  min_speed := 1
  max_speed := 2
  velocity_sigmoid_slope := 1
  costmap_direction_e := 0
  costmap_direction_z := 0
  pose_position := ⟨0, 0, 0⟩
  back_off_point := ⟨1, 0, 2⟩
  back_off_start_point := ⟨0, 0, 5⟩
  last_path_time := 0
  offboard_pose_position := ⟨0, 0, 0⟩

/-- Concrete `param_` values used to instantiate witnesses. -/
noncomputable def baseParams : ModelParams where
  goal_acceptance_radius_in := 1/2
  goal_acceptance_radius_out := 1
  factor_close_to_goal_start_speed_limitation := 1
  factor_close_to_goal_stop_speed_limitation := 2
  max_speed_close_to_goal_factor := 1
  min_speed_close_to_goal := 1/4

/-- A concrete configuration used to instantiate witnesses. -/
noncomputable def baseConfig : Config where
  param := baseParams
  max_jerk_limit_param := 10
  min_jerk_limit_param := 0
  alpha_res := 6

/-- A concrete output record used to instantiate witnesses. -/
noncomputable def baseOutput : WaypointResult where
  waypoint_type := .direct
  goto_position := ⟨0, 0, 0⟩
  adapted_goto_position := ⟨0, 0, 0⟩
  smoothed_goto_position := ⟨0, 0, 0⟩
  position_waypoint := ⟨⟨0, 0, 0⟩, 0⟩
  velocity_waypoint := ⟨⟨0, 0, 0⟩, 0⟩

/-- A concrete generator state used to instantiate witnesses. -/
noncomputable def baseState : WGState where
  pose_position := ⟨0, 0, 0⟩
  curr_yaw := 0
  goal := ⟨100, 0, 0⟩
  curr_vel := ⟨0, 0, 0⟩
  curr_vel_magnitude := 0
  z_FOV_idx := [30]
  update_time := 0
  planner_info := basePlannerInfo
  output := baseOutput
  last_time := 0
  current_time := 0
  velocity_time := 0
  last_wp_type := .direct
  last_position_waypoint := ⟨⟨0, 0, 0⟩, 0⟩
  last_yaw := 0
  last_velocity := ⟨0, 0⟩
  hover_position := ⟨0, 0, 0⟩
  reached_goal := false
  limit_speed_close_to_goal := false
  yaw_reached_goal := 0
  speed := 0
  waypoint_outside_FOV := false
  only_yawed := false
  new_yaw := 0

/-! ### Claims -/

/-- C8: for every tick where the measured time delta between the previous
and current tick is non-positive, the smoother uses the fixed default
interval 0.004 seconds as `dt` instead of the measured delta; for positive
deltas the measured value is used.  (`computeDt` is line 349 of
`getPathMsg`, whose result is the `dt` handed to `smoothWaypoint`.) -/
theorem c8_dt_fallback (delta : ℝ) :
    (delta ≤ 0 → computeDt delta = 0.004) ∧
    (0 < delta → computeDt delta = delta) := by
  constructor
  · intro h
    simp [computeDt, not_lt.mpr h]
  · intro h
    simp [computeDt, h]

/-- Witness for C8 at the concrete deltas -1 and 1/2. -/
theorem c8_dt_fallback_witness :
    computeDt (-1) = 0.004 ∧ computeDt (1/2) = 1/2 :=
  ⟨(c8_dt_fallback (-1)).1 (by norm_num), (c8_dt_fallback (1/2)).2 (by norm_num)⟩

/-- C9: an `updateState` call whose new goal differs from the stored goal by
more than 0.1 in Euclidean norm resets both `reached_goal` and
`limit_speed_close_to_goal` to false; otherwise it leaves both unchanged. -/
theorem c9_goal_change_resets_flags (s : WGState) (inp : UpdateInput) :
    ((s.goal - inp.goal_position).norm > 0.1 →
      (updateState s inp).reached_goal = false ∧
      (updateState s inp).limit_speed_close_to_goal = false) ∧
    (¬ (s.goal - inp.goal_position).norm > 0.1 →
      (updateState s inp).reached_goal = s.reached_goal ∧
      (updateState s inp).limit_speed_close_to_goal =
        s.limit_speed_close_to_goal) := by
  constructor <;> intro h <;> simp [updateState, h]

/-- A concrete `updateState` input moving the goal from (100,0,0) to
(1,0,0). -/
noncomputable def c9InpFar : UpdateInput where
  act_pose_position := ⟨0, 0, 0⟩
  act_pose_yaw := 0
  goal_position := ⟨1, 0, 0⟩
  vel_linear := ⟨0, 0, 0⟩
  stay := false
  t := 0
  fov_idx := [30]

/-- A concrete `updateState` input resending the stored goal (100,0,0). -/
noncomputable def c9InpSame : UpdateInput where
  act_pose_position := ⟨0, 0, 0⟩
  act_pose_yaw := 0
  goal_position := ⟨100, 0, 0⟩
  vel_linear := ⟨0, 0, 0⟩
  stay := false
  t := 0
  fov_idx := [30]

/-- Subtracting a vector from itself yields the zero vector. -/
@[simp] theorem Vec3.sub_self (v : Vec3) : v - v = (⟨0, 0, 0⟩ : Vec3) := by
  show (⟨v.x - v.x, v.y - v.y, v.z - v.z⟩ : Vec3) = _
  simp

/-- Adding the zero vector is the identity. -/
@[simp] theorem Vec3.add_zero_vec (v : Vec3) : v + (⟨0, 0, 0⟩ : Vec3) = v := by
  show (⟨v.x + 0, v.y + 0, v.z + 0⟩ : Vec3) = v
  simp

/-- The output assembly never changes the raw goal point. -/
theorem assembleOutput_goto (cfg : Config) (s : WGState) :
    (assembleOutput cfg s).output.goto_position = s.output.goto_position := by
  have h1 := withinGoalRadiusState_output cfg s
  simp only [assembleOutput, transformPositionToVelocityWaypoint, createPoseMsg]
  split_ifs <;> simp [h1]

/-- The output assembly never changes the output mode label. -/
theorem assembleOutput_wptype (cfg : Config) (s : WGState) :
    (assembleOutput cfg s).output.waypoint_type = s.output.waypoint_type := by
  have h1 := withinGoalRadiusState_output cfg s
  simp only [assembleOutput, transformPositionToVelocityWaypoint, createPoseMsg]
  split_ifs <;> simp [h1]

/-- Once target altitude is reached, `getPathMsg` never changes the raw goal
point (only the altitude-first override rewrites it). -/
theorem getPathMsg_goto (cfg : Config) (s : WGState)
    (h : s.planner_info.reach_altitude = true) :
    (getPathMsg cfg s).output.goto_position = s.output.goto_position := by
  simp only [getPathMsg]
  split_ifs with hc
  · simp only [adaptSpeed_planner_info] at hc
    simp [h] at hc
  · simp [assembleOutput_goto, smoothWaypoint_goto, adaptSpeed_goto]

/-- `getPathMsg` never changes the output mode label. -/
theorem getPathMsg_wptype (cfg : Config) (s : WGState) :
    (getPathMsg cfg s).output.waypoint_type = s.output.waypoint_type := by
  simp only [getPathMsg]
  split_ifs with hc
  · simp [assembleOutput_wptype, reachGoalAltitudeFirst_wptype, adaptSpeed_wptype]
  · simp [assembleOutput_wptype, smoothWaypoint_wptype, adaptSpeed_wptype]

/-- C7: in GoBack mode the goal point is the current position plus the
horizontal-only normalized direction away from the back-off reference point
scaled by 0.5, with the output altitude forced to the back-off start
point's. -/
theorem c7_goback_step (s : WGState)
    (h : 0 < (s.pose_position.x - s.planner_info.back_off_point.x) ^ 2 +
        (s.pose_position.y - s.planner_info.back_off_point.y) ^ 2) :
    (backOff s).output.goto_position =
      ⟨s.pose_position.x + 0.5 *
          ((s.pose_position.x - s.planner_info.back_off_point.x) /
            Real.sqrt ((s.pose_position.x - s.planner_info.back_off_point.x) ^ 2 +
              (s.pose_position.y - s.planner_info.back_off_point.y) ^ 2)),
        s.pose_position.y + 0.5 *
          ((s.pose_position.y - s.planner_info.back_off_point.y) /
            Real.sqrt ((s.pose_position.x - s.planner_info.back_off_point.x) ^ 2 +
              (s.pose_position.y - s.planner_info.back_off_point.y) ^ 2)),
        s.planner_info.back_off_start_point.z⟩ := by
  simp only [backOff, transformPositionToVelocityWaypoint, Vec3.sub_x, Vec3.sub_y]
  rw [Vec3.normalized_xy _ _ h]
  simp

/-- The pose of the claim C7 scenario: vehicle at (0,0,2); the base
directive holds back-off point (1,0,2) and back-off start altitude 5. -/
noncomputable def c7State : WGState := { baseState with pose_position := ⟨0, 0, 2⟩ }

/-- Witness for C7 at the scenario of the claim: the target is the half-unit
step along (-1,0,0) with altitude 5. -/
theorem c7_goback_step_witness :
    (backOff c7State).output.goto_position = ⟨-(1/2), 0, 5⟩ := by
  have h := c7_goback_step c7State
    (by norm_num [c7State, baseState, basePlannerInfo])
  rw [h]
  norm_num [c7State, baseState, basePlannerInfo, Real.sqrt_one]

/-- C4: a zero-length direction (position equal to the goal in the
Direct/ReachHeight strategy, or zero horizontal offset from the back-off
point in GoBack) produces a zero step: `goFast` leaves the goal point at the
current position and `backOff` moves only the altitude.  The normalization
guard makes the division by a zero norm unreachable, so no NaN can arise. -/
theorem c4_zero_direction (cfg : Config) (s : WGState)
    (hgoal : s.goal = s.pose_position)
    (hbx : s.pose_position.x - s.planner_info.back_off_point.x = 0)
    (hby : s.pose_position.y - s.planner_info.back_off_point.y = 0) :
    (s.planner_info.reach_altitude = true →
      (goFast cfg s).output.goto_position = s.pose_position) ∧
    (backOff s).output.goto_position =
      ⟨s.pose_position.x, s.pose_position.y,
        s.planner_info.back_off_start_point.z⟩ := by
  constructor
  · intro halt
    simp only [goFast]
    rw [getPathMsg_goto _ _ (by simp [halt])]
    rw [hgoal, Vec3.sub_self, Vec3.normalized_zero]
    simp
  · simp only [backOff, transformPositionToVelocityWaypoint, Vec3.sub_x, Vec3.sub_y]
    rw [hbx, hby, Vec3.normalized_zero]
    simp

/-- The directive of the C4 witness: the back-off point sits directly below
the pose. -/
noncomputable def c4Planner : AvoidanceOutput :=
  { basePlannerInfo with back_off_point := ⟨0, 0, 7⟩ }

/-- The state of the C4 witness: the goal coincides with the pose and the
back-off point sits directly below the pose. -/
noncomputable def c4State : WGState :=
  { baseState with goal := ⟨0, 0, 0⟩, planner_info := c4Planner }

/-- Witness for C4 at a concrete degenerate state. -/
theorem c4_zero_direction_witness :
    (goFast baseConfig c4State).output.goto_position = c4State.pose_position ∧
    (backOff c4State).output.goto_position =
      ⟨c4State.pose_position.x, c4State.pose_position.y,
        c4State.planner_info.back_off_start_point.z⟩ := by
  have h := c4_zero_direction baseConfig c4State
    (by norm_num [c4State, baseState])
    (by norm_num [c4State, c4Planner, baseState, basePlannerInfo])
    (by norm_num [c4State, c4Planner, baseState, basePlannerInfo])
  exact ⟨h.1 rfl, h.2⟩

/-- Each step of the nearest-index loop never increases the accumulator. -/
theorem nearestFold_le_init (z : ℤ) (l : List ℤ) (a : ℤ) :
    l.foldl (fun d i => if |i - z| < d then |i - z| else d) a ≤ a := by
  induction l generalizing a with
  | nil => simp
  | cons j l ih =>
      simp only [List.foldl_cons]
      refine le_trans (ih _) ?_
      by_cases hj : |j - z| < a
      · rw [if_pos hj]
        exact le_of_lt hj
      · rw [if_neg hj]

/-- The nearest-index loop's result is at most the distance to any member of
the list. -/
theorem nearestFold_le_mem (z : ℤ) (l : List ℤ) :
    ∀ (a i : ℤ), i ∈ l →
      l.foldl (fun d i => if |i - z| < d then |i - z| else d) a ≤ |i - z| := by
  induction l with
  | nil =>
      intro a i hi
      cases hi
  | cons j l ih =>
      intro a i hi
      simp only [List.foldl_cons]
      rcases List.mem_cons.mp hi with h | h
      · subst h
        refine le_trans (nearestFold_le_init z l _) ?_
        by_cases hj : |i - z| < a
        · rw [if_pos hj]
        · rw [if_neg hj]
          exact not_lt.mp hj
      · exact ih _ i h

/-- A common lower bound of the start value and all distances bounds the
nearest-index loop's result from below. -/
theorem nearestFold_lb (z c : ℤ) (l : List ℤ) :
    ∀ a : ℤ, (∀ i ∈ l, c ≤ |i - z|) → c ≤ a →
      c ≤ l.foldl (fun d i => if |i - z| < d then |i - z| else d) a := by
  induction l with
  | nil =>
      intro a _ ha
      simpa using ha
  | cons j l ih =>
      intro a hl ha
      simp only [List.foldl_cons]
      refine ih _ (fun i hi => hl i (List.mem_cons_of_mem _ hi)) ?_
      by_cases hj : |j - z| < a
      · rw [if_pos hj]
        exact hl j (List.mem_cons_self _ _)
      · rw [if_neg hj]
        exact ha

/-- The nearest-index loop computes the minimum of 100 and the true nearest
index distance. -/
theorem nearestIndexDist_eq (z d : ℤ) (l : List ℤ)
    (hlb : ∀ i ∈ l, d ≤ |i - z|) (hex : ∃ i ∈ l, |i - z| = d) :
    nearestIndexDist l z = min 100 d := by
  obtain ⟨i0, hi0, hd0⟩ := hex
  refine le_antisymm (le_min (nearestFold_le_init z l 100) ?_) ?_
  · rw [← hd0]
    exact nearestFold_le_mem z l 100 i0 hi0
  · exact nearestFold_lb z (min 100 d) l 100
      (fun i hi => le_trans (min_le_right _ _) (hlb i hi)) (min_le_left _ _)

/-- Capping at 30 degrees erases the difference between the 100-initialized
loop minimum and the true nearest index distance. -/
theorem cap30_eq (alpha d : ℤ) (ha : 1 ≤ alpha) (hd : 0 ≤ d) :
    min (|((alpha * min 100 d : ℤ) : ℝ)|) 30 = min (((alpha * d : ℤ) : ℝ)) 30 := by
  have ha' : (1 : ℝ) ≤ (alpha : ℝ) := by exact_mod_cast ha
  have hd' : (0 : ℝ) ≤ (d : ℝ) := by exact_mod_cast hd
  push_cast
  rcases le_total ((d : ℝ)) 100 with h | h
  · rw [min_eq_right h, abs_of_nonneg (by nlinarith)]
  · rw [min_eq_left h, abs_of_nonneg (by nlinarith)]
    rw [min_eq_right (by nlinarith), min_eq_right (by nlinarith)]

/-- C6: when the candidate azimuth index is outside the visible FOV set,
altitude is reached and the goal is not, the speed is scaled by
(1 - angle_diff/30) where angle_diff is the angular distance in degrees to
the nearest visible index capped at 30 degrees (so a 30-degree distance
yields speed 0), and the yaw-only flag is set once the scaled speed falls
under 0.01. -/
theorem c6_fov_slowdown (cfg : Config) (idxs : List ℤ) (z_index : ℤ)
    (speed : ℝ) (oy : Bool) (d : ℤ)
    (hout : z_index ∉ idxs)
    (halpha : 1 ≤ cfg.alpha_res)
    (hlb : ∀ i ∈ idxs, d ≤ |i - z_index|)
    (hex : ∃ i ∈ idxs, |i - z_index| = d) :
    (fovSpeedScale cfg idxs z_index true false speed oy).speed =
      speed * (1 - min (((cfg.alpha_res * d : ℤ) : ℝ)) 30 / 30) ∧
    (((cfg.alpha_res * d : ℤ) : ℝ) = 30 →
      (fovSpeedScale cfg idxs z_index true false speed oy).speed = 0) ∧
    ((fovSpeedScale cfg idxs z_index true false speed oy).speed < 0.01 →
      (fovSpeedScale cfg idxs z_index true false speed oy).only_yawed = true) ∧
    (fovSpeedScale cfg idxs z_index true false speed oy).waypoint_outside_FOV
      = true := by
  have hd : 0 ≤ d := by
    obtain ⟨i0, _, h0⟩ := hex
    rw [← h0]
    exact abs_nonneg _
  have hfold := nearestIndexDist_eq z_index d idxs hlb hex
  have hval : fovSpeedScale cfg idxs z_index true false speed oy =
      ⟨speed * (1 - min (((cfg.alpha_res * d : ℤ) : ℝ)) 30 / 30), true,
        if speed * (1 - min (((cfg.alpha_res * d : ℤ) : ℝ)) 30 / 30) < 0.01
          then true else false⟩ := by
    simp only [fovSpeedScale]
    rw [if_neg hout, if_pos (by simp)]
    simp only [hfold, cap30_eq cfg.alpha_res d halpha hd]
  refine ⟨by rw [hval], ?_, ?_, by rw [hval]⟩
  · intro h30
    rw [hval]
    simp only [h30]
    norm_num
  · intro hsmall
    rw [hval] at hsmall ⊢
    simp only at hsmall
    rw [if_pos hsmall]

/-- Witness for C6 at the claim's scenario: resolution 6, visible index set
[10], candidate index 5, nearest distance 5, so the angular distance is 30
degrees, the speed scales to 0 and a speed under 0.01 forces yaw-only. -/
theorem c6_fov_slowdown_witness :
    (fovSpeedScale baseConfig [10] 5 true false 1 false).speed =
      1 * (1 - min (((baseConfig.alpha_res * 5 : ℤ) : ℝ)) 30 / 30) ∧
    ((fovSpeedScale baseConfig [10] 5 true false 1 false).speed < 0.01 →
      (fovSpeedScale baseConfig [10] 5 true false 1 false).only_yawed = true) := by
  have h := c6_fov_slowdown baseConfig [10] 5 1 false 5
    (by decide) (by norm_num [baseConfig]) (by decide) (by decide)
  exact ⟨h.1, h.2.2.1⟩

/-- The reached flag after the output assembly is exactly the hysteresis
update's. -/
theorem assembleOutput_reached (cfg : Config) (s : WGState) :
    (assembleOutput cfg s).reached_goal =
      (withinGoalRadiusState cfg s).reached_goal := by
  simp only [assembleOutput, transformPositionToVelocityWaypoint, createPoseMsg]
  split_ifs <;> rfl

/-- The output assembly keeps the snapshotted yaw of the hysteresis
update. -/
theorem assembleOutput_yawsnap (cfg : Config) (s : WGState) :
    (assembleOutput cfg s).yaw_reached_goal =
      (withinGoalRadiusState cfg s).yaw_reached_goal := by
  simp only [assembleOutput, transformPositionToVelocityWaypoint, createPoseMsg]
  split_ifs <;> rfl

/-- Once the hysteresis reports reached, the output assembly pins the target
to the goal and the yaw to the snapshot. -/
theorem assembleOutput_pins (cfg : Config) (s : WGState)
    (h : (withinGoalRadiusState cfg s).reached_goal = true) :
    (assembleOutput cfg s).output.smoothed_goto_position = s.goal ∧
    (assembleOutput cfg s).output.position_waypoint =
      createPoseMsg s.goal ((withinGoalRadiusState cfg s).yaw_reached_goal) := by
  have hg := withinGoalRadiusState_goal cfg s
  simp only [assembleOutput, transformPositionToVelocityWaypoint, createPoseMsg, h]
  simp [hg]

/-- While the goal is reached, one `getPathMsg` pass outputs the exact goal
position with the snapshotted yaw. -/
theorem getPathMsg_pins (cfg : Config) (s : WGState)
    (h : (getPathMsg cfg s).reached_goal = true) :
    (getPathMsg cfg s).output.smoothed_goto_position = s.goal ∧
    (getPathMsg cfg s).output.position_waypoint =
      createPoseMsg s.goal ((getPathMsg cfg s).yaw_reached_goal) := by
  have base : ∀ s' : WGState, s'.goal = s.goal →
      (assembleOutput cfg s').reached_goal = true →
      (assembleOutput cfg s').output.smoothed_goto_position = s.goal ∧
      (assembleOutput cfg s').output.position_waypoint =
        createPoseMsg s.goal ((assembleOutput cfg s').yaw_reached_goal) := by
    intro s' hg hr
    rw [assembleOutput_reached] at hr
    have hp := assembleOutput_pins cfg s' hr
    rw [hg] at hp
    rw [assembleOutput_yawsnap]
    exact hp
  revert h
  simp only [getPathMsg]
  intro h
  refine base _ ?_ h
  split_ifs
  · simp [reachGoalAltitudeFirst_goal, adaptSpeed_goal]
  · simp [smoothWaypoint_goal, adaptSpeed_goal]

/-- C2: the reached-goal flag enters when the squared distance falls under
the inner radius squared (snapshotting the yaw on first entry), stays while
the distance is at most the outer radius, leaves only once the distance
exceeds the outer radius, and while set the final smoothed target is the
exact goal and the commanded yaw is the snapshot. -/
theorem c2_reached_goal_hysteresis (cfg : Config) (s : WGState) :
    ((s.goal - s.pose_position).sqNorm <
        cfg.param.goal_acceptance_radius_in * cfg.param.goal_acceptance_radius_in →
      (withinGoalRadiusState cfg s).reached_goal = true ∧
      (s.reached_goal = false →
        (withinGoalRadiusState cfg s).yaw_reached_goal = s.curr_yaw)) ∧
    (0 ≤ cfg.param.goal_acceptance_radius_out →
      (s.goal - s.pose_position).norm ≤ cfg.param.goal_acceptance_radius_out →
      s.reached_goal = true →
      (withinGoalRadiusState cfg s).reached_goal = true) ∧
    (s.reached_goal = true →
      (withinGoalRadiusState cfg s).reached_goal = false →
      (s.goal - s.pose_position).norm > cfg.param.goal_acceptance_radius_out) ∧
    ((getPathMsg cfg s).reached_goal = true →
      (getPathMsg cfg s).output.smoothed_goto_position = s.goal ∧
      (getPathMsg cfg s).output.position_waypoint =
        createPoseMsg s.goal ((getPathMsg cfg s).yaw_reached_goal)) := by
  refine ⟨?_, ?_, ?_, getPathMsg_pins cfg s⟩
  · intro h1
    simp only [withinGoalRadiusState]
    rw [if_pos h1]
    refine ⟨rfl, ?_⟩
    intro hrf
    simp [hrf]
  · intro hout hle hrg
    have hsq : (s.goal - s.pose_position).sqNorm ≤
        cfg.param.goal_acceptance_radius_out *
          cfg.param.goal_acceptance_radius_out := by
      rw [Vec3.norm] at hle
      have h2 := (Real.sqrt_le_iff.mp hle).2
      nlinarith [h2]
    simp only [withinGoalRadiusState]
    by_cases hin : (s.goal - s.pose_position).sqNorm <
        cfg.param.goal_acceptance_radius_in * cfg.param.goal_acceptance_radius_in
    · rw [if_pos hin]
    · rw [if_neg hin, if_neg (not_lt.mpr hsq)]
      exact hrg
  · intro hrg hfalse
    simp only [withinGoalRadiusState] at hfalse
    by_cases hin : (s.goal - s.pose_position).sqNorm <
        cfg.param.goal_acceptance_radius_in * cfg.param.goal_acceptance_radius_in
    · rw [if_pos hin] at hfalse
      simp at hfalse
    · rw [if_neg hin] at hfalse
      by_cases hout2 : (s.goal - s.pose_position).sqNorm >
          cfg.param.goal_acceptance_radius_out * cfg.param.goal_acceptance_radius_out
      · rw [Vec3.norm]
        rcases le_or_lt 0 cfg.param.goal_acceptance_radius_out with ho | ho
        · refine (Real.lt_sqrt ho).mpr ?_
          nlinarith [hout2]
        · exact lt_of_lt_of_le ho (Real.sqrt_nonneg _)
      · rw [if_neg hout2] at hfalse
        rw [hrg] at hfalse
        simp at hfalse

/-- The C2 entry scenario: the goal coincides with the pose. -/
noncomputable def c2Near : WGState := { baseState with goal := ⟨0, 0, 0⟩ }

/-- The C2 sticky scenario: distance 1 equals the outer radius and the flag
is already set. -/
noncomputable def c2Mid : WGState :=
  { baseState with goal := ⟨1, 0, 0⟩, reached_goal := true }

/-- The C2 exit scenario: distance 100 with the flag set. -/
noncomputable def c2Far : WGState := { baseState with reached_goal := true }

/-- Witness for C2: entry with yaw snapshot at distance 0, stickiness at
distance 1 (the outer radius), and the exit bound at distance 100. -/
theorem c2_reached_goal_hysteresis_witness :
    ((withinGoalRadiusState baseConfig c2Near).reached_goal = true ∧
      (c2Near.reached_goal = false →
        (withinGoalRadiusState baseConfig c2Near).yaw_reached_goal =
          c2Near.curr_yaw)) ∧
    (withinGoalRadiusState baseConfig c2Mid).reached_goal = true ∧
    (c2Far.goal - c2Far.pose_position).norm >
      baseConfig.param.goal_acceptance_radius_out := by
  refine ⟨(c2_reached_goal_hysteresis baseConfig c2Near).1 ?_,
    (c2_reached_goal_hysteresis baseConfig c2Mid).2.1 ?_ ?_ ?_,
    (c2_reached_goal_hysteresis baseConfig c2Far).2.2.1 ?_ ?_⟩
  · norm_num [c2Near, baseState, baseConfig, baseParams, Vec3.sqNorm]
  · norm_num [baseConfig, baseParams]
  · have : ((c2Mid.goal - c2Mid.pose_position)).sqNorm = 1 := by
      norm_num [c2Mid, baseState, Vec3.sqNorm]
    rw [Vec3.norm, this, Real.sqrt_one]
    norm_num [baseConfig, baseParams]
  · norm_num [c2Mid, baseState]
  · norm_num [c2Far, baseState]
  · norm_num [withinGoalRadiusState, c2Far, baseState, baseConfig, baseParams,
      Vec3.sqNorm]

/-- C3: in TryPath mode the tree direction is used iff a direction was
extractable, the path is under 5 seconds old, and either an obstacle is
flagged ahead or the goal is more than 4 units away; when any condition
fails the tick produces the Direct result (unit step toward the goal) and
the output mode label downgrades to Direct. -/
theorem c3_trypath_conditions (cfg : Config) (s : WGState) (t_now : ℝ)
    (tree : TreeQuery)
    (hmode : s.planner_info.waypoint_type = .tryPath) :
    ((tree.available = true ∧
        (s.planner_info.obstacle_ahead = true ∨
          (s.goal - s.pose_position).norm > 4) ∧
        t_now - s.planner_info.last_path_time < 5) →
      (calculateWaypoint cfg s t_now tree).output.waypoint_type = .tryPath ∧
      (s.planner_info.reach_altitude = true →
        (calculateWaypoint cfg s t_now tree).output.goto_position =
          fromPolarToCartesian tree.p_x tree.p_y 1 s.planner_info.pose_position)) ∧
    (¬ (tree.available = true ∧
        (s.planner_info.obstacle_ahead = true ∨
          (s.goal - s.pose_position).norm > 4) ∧
        t_now - s.planner_info.last_path_time < 5) →
      (calculateWaypoint cfg s t_now tree).output.waypoint_type = .direct ∧
      (s.planner_info.reach_altitude = true →
        (calculateWaypoint cfg s t_now tree).output.goto_position =
          s.pose_position + (s.goal - s.pose_position).normalized)) := by
  constructor
  · intro hc
    simp only [calculateWaypoint, hmode]
    rw [if_pos hc]
    constructor
    · rw [getPathMsg_wptype]
    · intro halt
      rw [getPathMsg_goto _ _ (by simp [halt])]
  · intro hc
    simp only [calculateWaypoint, hmode]
    rw [if_neg hc]
    constructor
    · rfl
    · intro halt
      show (goFast cfg _).output.goto_position = _
      simp only [goFast]
      rw [getPathMsg_goto _ _ (by simp [halt])]

/-- The TryPath directive of the C3 witness. -/
noncomputable def c3Planner : AvoidanceOutput :=
  { basePlannerInfo with waypoint_type := .tryPath }

/-- The state of the C3 witness: a TryPath directive. -/
noncomputable def c3State : WGState :=
  { baseState with planner_info := c3Planner }

/-- Witness for C3: an unavailable tree direction downgrades the tick to
Direct with the unit step toward the goal. -/
theorem c3_trypath_conditions_witness :
    (calculateWaypoint baseConfig c3State 0 ⟨false, 0, 0⟩).output.waypoint_type
      = .direct ∧
    (calculateWaypoint baseConfig c3State 0 ⟨false, 0, 0⟩).output.goto_position =
      c3State.pose_position + (c3State.goal - c3State.pose_position).normalized := by
  have h := (c3_trypath_conditions baseConfig c3State 0 ⟨false, 0, 0⟩ rfl).2
    (by simp)
  exact ⟨h.1, h.2 rfl⟩

/-- C10: an `updateState` call with the hold-in-place boolean set overwrites
the stored directive's mode to Hover, so the next tick dispatches the hover
strategy (hover mode label; goal point frozen at the entry pose, or at the
previously frozen hover position when the last tick already hovered),
whatever mode the directive last supplied. -/
theorem c10_stay_forces_hover (cfg : Config) (s : WGState) (inp : UpdateInput)
    (t_now : ℝ) (tree : TreeQuery)
    (hstay : inp.stay = true) :
    (updateState s inp).planner_info.waypoint_type = .hover ∧
    (calculateWaypoint cfg (updateState s inp) t_now tree).output.waypoint_type
      = .hover ∧
    (s.planner_info.reach_altitude = true →
      (calculateWaypoint cfg (updateState s inp) t_now tree).output.goto_position =
        (if s.last_wp_type ≠ WaypointType.hover then inp.act_pose_position
          else s.hover_position)) := by
  have h1 : (updateState s inp).planner_info.waypoint_type = .hover := by
    simp [updateState, hstay]
  have h3 : (updateState s inp).last_wp_type = s.last_wp_type := by
    simp [updateState]
  have h4 : (updateState s inp).pose_position = inp.act_pose_position := by
    simp [updateState]
  have h5 : (updateState s inp).hover_position = s.hover_position := by
    simp [updateState]
  refine ⟨h1, ?_, ?_⟩
  · simp only [calculateWaypoint, h1]
    split_ifs <;> rw [getPathMsg_wptype]
  · intro halt
    have h2 : (updateState s inp).planner_info.reach_altitude = true := by
      simp [updateState, hstay, halt]
    simp only [calculateWaypoint, h1]
    rw [getPathMsg_goto _ _ (by split_ifs <;> simp [h2])]
    simp only [h3, h4, h5]
    split_ifs with hl
    · simp [h4]
    · simp [h5]

/-- The `updateState` input of the C10 witness: hold-in-place requested at
pose (3,3,3). -/
noncomputable def c10Inp : UpdateInput where
  act_pose_position := ⟨3, 3, 3⟩
  act_pose_yaw := 0
  goal_position := ⟨100, 0, 0⟩
  vel_linear := ⟨0, 0, 0⟩
  stay := true
  t := 0
  fov_idx := [30]

/-- Witness for C10 at a concrete hold-in-place tick. -/
theorem c10_stay_forces_hover_witness :
    (updateState baseState c10Inp).planner_info.waypoint_type = .hover ∧
    (calculateWaypoint baseConfig (updateState baseState c10Inp) 1
        ⟨true, 0, 0⟩).output.waypoint_type = .hover ∧
    (calculateWaypoint baseConfig (updateState baseState c10Inp) 1
        ⟨true, 0, 0⟩).output.goto_position =
      (if baseState.last_wp_type ≠ WaypointType.hover then c10Inp.act_pose_position
        else baseState.hover_position) := by
  have h := c10_stay_forces_hover baseConfig baseState c10Inp 1 ⟨true, 0, 0⟩ rfl
  exact ⟨h.1, h.2.1, h.2.2 rfl⟩

/-- C1 (amended): after the base speed envelope of the Speed Adaptation
stage the speed lies within [0, max_speed] when no obstacle is ahead and
within [0, min_speed] when an obstacle is ahead, for any elapsed time ≥ 0,
nonnegative ramp slope, prior speed and bounds; the full stage need not keep
the speed within [min_speed, max_speed] (see the counterexample). -/
theorem c1_base_envelope_bounds (pi : AvoidanceOutput) (speed elapsed : ℝ)
    (hspeed : 0 ≤ speed) (helapsed : 0 ≤ elapsed)
    (hslope : 0 ≤ pi.velocity_sigmoid_slope)
    (hmax : 0 ≤ pi.max_speed) (hmin : 0 ≤ pi.min_speed) :
    (pi.obstacle_ahead = false →
      0 ≤ baseSpeedEnvelope pi speed elapsed ∧
      baseSpeedEnvelope pi speed elapsed ≤ pi.max_speed) ∧
    (pi.obstacle_ahead = true →
      0 ≤ baseSpeedEnvelope pi speed elapsed ∧
      baseSpeedEnvelope pi speed elapsed ≤ pi.min_speed) := by
  unfold baseSpeedEnvelope velocityLinear
  constructor
  · intro h
    rw [if_pos h]
    exact ⟨le_min (add_nonneg (le_min hspeed hmax)
      (mul_nonneg hslope helapsed)) hmax, min_le_right _ _⟩
  · intro h
    rw [if_neg (by simp [h])]
    exact ⟨le_min (add_nonneg (le_min hspeed hmin)
      (mul_nonneg hslope helapsed)) hmin, min_le_right _ _⟩

/-- Witness for the amended C1: no obstacle, prior speed 0, slope 1, elapsed
time 1 with the base directive's bounds. -/
theorem c1_base_envelope_bounds_witness :
    0 ≤ baseSpeedEnvelope basePlannerInfo 0 1 ∧
    baseSpeedEnvelope basePlannerInfo 0 1 ≤ basePlannerInfo.max_speed :=
  (c1_base_envelope_bounds basePlannerInfo 0 1 le_rfl (by norm_num)
    (by norm_num [basePlannerInfo]) (by norm_num [basePlannerInfo])
    (by norm_num [basePlannerInfo])).1 rfl

/-- The directive of the C1 counterexample: obstacle ahead, minimum speed 1,
maximum speed 2. -/
noncomputable def c1Planner : AvoidanceOutput :=
  { basePlannerInfo with obstacle_ahead := true }

/-- The state of the C1 counterexample: prior speed 0, all clocks equal, the
candidate direction inside the visible FOV set, goal 100 units away. -/
noncomputable def c1State : WGState :=
  { baseState with planner_info := c1Planner }

/-- Counterexample for C1 as stated: with an obstacle ahead, prior speed 0
and elapsed time 0 the speed after the whole Speed Adaptation stage is 0,
strictly below the directive's minimum speed 1, so the post-stage speed is
not within [min_speed, max_speed]. -/
theorem c1_counterexample :
    (adaptSpeed baseConfig c1State).speed = 0 ∧
    c1State.planner_info.min_speed = 1 := by
  have harg : azimuthAnglefromCartesian (⟨0, 0, 0⟩ : Vec3) (⟨0, 0, 0⟩ : Vec3) = 0 := by
    have h0 : (⟨(0 : ℝ), (0 : ℝ)⟩ : ℂ) = 0 := by
      apply Complex.ext <;> norm_num
    simp [azimuthAnglefromCartesian, h0, Complex.arg_zero]
  have htrunc : truncToInt 0 = 0 := by
    rw [truncToInt, if_pos le_rfl, Int.floor_zero]
  have hidx : azimuthAngletoIndex (0 : ℝ) (6 : ℤ) = 30 := by
    rw [azimuthAngletoIndex, if_neg (by norm_num)]
    norm_num
  refine ⟨?_, rfl⟩
  norm_num [adaptSpeed, baseSpeedEnvelope, velocityLinear, fovSpeedScale,
    harg, htrunc, hidx, c1State, c1Planner, baseState, basePlannerInfo,
    baseOutput, baseConfig, baseParams, Vec3.cwiseAbs, min_def]

/-- Componentwise extensionality for 2D vectors. -/
theorem Vec2.ext_xy (a b : Vec2) (hx : a.x = b.x) (hy : a.y = b.y) : a = b := by
  cases a
  cases b
  simp_all

/-- Squared norm of a scalar multiple. -/
theorem Vec2.sqNorm_smul (c : ℝ) (v : Vec2) : (c • v).sqNorm = c ^ 2 * v.sqNorm := by
  simp only [Vec2.sqNorm, Vec2.p2_smul_x, Vec2.p2_smul_y]
  ring

/-- A 2D vector of positive squared norm normalizes to a unit vector. -/
theorem Vec2.sqNorm_normalized (v : Vec2) (h : 0 < v.sqNorm) :
    v.normalized.sqNorm = 1 := by
  have hn : Real.sqrt v.sqNorm ≠ 0 := ne_of_gt (Real.sqrt_pos.mpr h)
  have hs : Real.sqrt v.sqNorm ^ 2 = v.sqNorm := Real.sq_sqrt h.le
  rw [Vec2.normalized, if_pos h]
  simp only [Vec2.sqNorm, Vec2.norm] at *
  rw [div_pow, div_pow, div_add_div_same, hs]
  field_simp

/-- The jerk implied by the smoother's output setpoint: re-derive the
setpoint velocity from the smoothed position exactly as the smoother derives
it from the adapted one, then the acceleration difference and the jerk. -/
noncomputable def impliedJerkOf (cfg : Config) (s : WGState) (dt : ℝ) : Vec2 :=
  let out := (smoothWaypoint cfg s dt).output.smoothed_goto_position
  let vel_sp : Vec2 := ⟨(out.x - s.last_position_waypoint.position.x) / dt,
                        (out.y - s.last_position_waypoint.position.y) / dt⟩
  (((vel_sp - ⟨s.curr_vel.x, s.curr_vel.y⟩ : Vec2)).divs dt - accelCur s dt).divs dt

/-- The implied jerk of the smoothed output is the clamped jerk when the
clamp fires and the raw jerk delta otherwise. -/
theorem impliedJerkOf_eq (cfg : Config) (s : WGState) (dt : ℝ) (hdt : dt ≠ 0) :
    impliedJerkOf cfg s dt =
      if (rawJerkDiff s dt).sqNorm >
            computedMaxJerk cfg ⟨s.curr_vel.x, s.curr_vel.y⟩ *
              computedMaxJerk cfg ⟨s.curr_vel.x, s.curr_vel.y⟩ ∧
          computedMaxJerk cfg ⟨s.curr_vel.x, s.curr_vel.y⟩ > 0.001 then
        computedMaxJerk cfg ⟨s.curr_vel.x, s.curr_vel.y⟩ •
          (rawJerkDiff s dt).normalized
      else rawJerkDiff s dt := by
  by_cases hc : (rawJerkDiff s dt).sqNorm >
      computedMaxJerk cfg ⟨s.curr_vel.x, s.curr_vel.y⟩ *
        computedMaxJerk cfg ⟨s.curr_vel.x, s.curr_vel.y⟩ ∧
      computedMaxJerk cfg ⟨s.curr_vel.x, s.curr_vel.y⟩ > 0.001
  · rw [if_pos hc]
    simp only [impliedJerkOf, smoothWaypoint, if_pos hc]
    refine Vec2.ext_xy _ _ ?_ ?_ <;>
      · simp only [Vec2.divs_x, Vec2.divs_y, Vec2.p2_sub_x, Vec2.p2_sub_y,
          Vec2.p2_smul_x, Vec2.p2_smul_y, Vec2.p2_add_x, Vec2.p2_add_y]
        field_simp
  · rw [if_neg hc]
    simp only [impliedJerkOf, smoothWaypoint, if_neg hc]
    refine Vec2.ext_xy _ _ ?_ ?_ <;>
      · simp only [rawJerkDiff, Vec2.divs_x, Vec2.divs_y,
          Vec2.p2_sub_x, Vec2.p2_sub_y]
        field_simp

/-- C5 (amended): provided the computed maximum jerk bound exceeds the 0.001
activation threshold and the tick interval is nonzero, the jerk implied by
the smoother's output setpoint never exceeds the bound; when the raw jerk
delta exceeds the bound it is clamped to the bound's magnitude along its own
direction and re-integrated into the smoothed horizontal position, and the
vertical component passes through from the speed-adapted stage unchanged.
(When the computed bound is at most 0.001 no clamping occurs at all, which
is what refutes the claim as stated.) -/
theorem c5_jerk_bound (cfg : Config) (s : WGState) (dt : ℝ)
    (hdt : dt ≠ 0)
    (hmj : computedMaxJerk cfg ⟨s.curr_vel.x, s.curr_vel.y⟩ > 0.001) :
    (impliedJerkOf cfg s dt).sqNorm ≤
      computedMaxJerk cfg ⟨s.curr_vel.x, s.curr_vel.y⟩ *
        computedMaxJerk cfg ⟨s.curr_vel.x, s.curr_vel.y⟩ ∧
    ((rawJerkDiff s dt).sqNorm >
        computedMaxJerk cfg ⟨s.curr_vel.x, s.curr_vel.y⟩ *
          computedMaxJerk cfg ⟨s.curr_vel.x, s.curr_vel.y⟩ →
      impliedJerkOf cfg s dt =
        computedMaxJerk cfg ⟨s.curr_vel.x, s.curr_vel.y⟩ •
          (rawJerkDiff s dt).normalized) ∧
    (smoothWaypoint cfg s dt).output.smoothed_goto_position.z =
      s.output.adapted_goto_position.z := by
  have heq := impliedJerkOf_eq cfg s dt hdt
  have hz : (smoothWaypoint cfg s dt).output.smoothed_goto_position.z =
      s.output.adapted_goto_position.z := rfl
  by_cases hc : (rawJerkDiff s dt).sqNorm >
      computedMaxJerk cfg ⟨s.curr_vel.x, s.curr_vel.y⟩ *
        computedMaxJerk cfg ⟨s.curr_vel.x, s.curr_vel.y⟩
  · rw [if_pos ⟨hc, hmj⟩] at heq
    have hpos : 0 < (rawJerkDiff s dt).sqNorm := by nlinarith [hmj, hc]
    refine ⟨?_, fun _ => heq, hz⟩
    rw [heq, Vec2.sqNorm_smul, Vec2.sqNorm_normalized _ hpos]
    nlinarith [hmj]
  · rw [if_neg (by tauto)] at heq
    refine ⟨?_, fun hcc => absurd hcc hc, hz⟩
    rw [heq]
    exact le_of_not_lt hc

/-- The state of the C5 instances: previous commanded position at the
origin, zero velocity history, adapted target one unit along x. -/
noncomputable def c5State : WGState :=
  { baseState with output :=
      { baseOutput with adapted_goto_position := ⟨1, 0, 0⟩ } }

/-- The configuration of the C5 counterexample: both jerk limit parameters
zero, so the computed bound is 0 and the clamp's activation guard fails. -/
noncomputable def c5Config : Config :=
  { baseConfig with max_jerk_limit_param := 0 }

/-- Counterexample for C5 as stated: with both jerk limit parameters 0 the
computed bound is 0, the clamp never fires, and the implied jerk of the
output (squared norm 1) exceeds the bound. -/
theorem c5_counterexample :
    (impliedJerkOf c5Config c5State 1).sqNorm >
      computedMaxJerk c5Config ⟨c5State.curr_vel.x, c5State.curr_vel.y⟩ *
        computedMaxJerk c5Config ⟨c5State.curr_vel.x, c5State.curr_vel.y⟩ := by
  norm_num [impliedJerkOf, smoothWaypoint, computedMaxJerk, rawJerkDiff,
    velSpXY, accelCur, c5Config, c5State, baseConfig, baseState, baseOutput,
    baseParams, Vec2.sqNorm]

/-- Witness for the amended C5 at the base configuration (computed bound 10)
and a unit raw jerk, tick interval 1. -/
theorem c5_jerk_bound_witness :
    (impliedJerkOf baseConfig c5State 1).sqNorm ≤
      computedMaxJerk baseConfig ⟨c5State.curr_vel.x, c5State.curr_vel.y⟩ *
        computedMaxJerk baseConfig ⟨c5State.curr_vel.x, c5State.curr_vel.y⟩ ∧
    ((rawJerkDiff c5State 1).sqNorm >
        computedMaxJerk baseConfig ⟨c5State.curr_vel.x, c5State.curr_vel.y⟩ *
          computedMaxJerk baseConfig ⟨c5State.curr_vel.x, c5State.curr_vel.y⟩ →
      impliedJerkOf baseConfig c5State 1 =
        computedMaxJerk baseConfig ⟨c5State.curr_vel.x, c5State.curr_vel.y⟩ •
          (rawJerkDiff c5State 1).normalized) ∧
    (smoothWaypoint baseConfig c5State 1).output.smoothed_goto_position.z =
      c5State.output.adapted_goto_position.z :=
  c5_jerk_bound baseConfig c5State 1 (by norm_num)
    (by norm_num [computedMaxJerk, baseConfig, c5State, baseState, Vec2.sqNorm])

/-- Witness for C9: the far goal resets the flags, the unchanged goal keeps
them. -/
theorem c9_goal_change_resets_flags_witness :
    ((updateState baseState c9InpFar).reached_goal = false ∧
      (updateState baseState c9InpFar).limit_speed_close_to_goal = false) ∧
    ((updateState baseState c9InpSame).reached_goal = baseState.reached_goal ∧
      (updateState baseState c9InpSame).limit_speed_close_to_goal =
        baseState.limit_speed_close_to_goal) := by
  constructor
  · refine (c9_goal_change_resets_flags baseState c9InpFar).1 ?_
    have : ((baseState.goal - c9InpFar.goal_position)).sqNorm = 99 ^ 2 := by
      norm_num [baseState, c9InpFar, Vec3.sqNorm]
    rw [Vec3.norm, this, Real.sqrt_sq (by norm_num)]
    norm_num
  · refine (c9_goal_change_resets_flags baseState c9InpSame).2 ?_
    have : ((baseState.goal - c9InpSame.goal_position)).sqNorm = 0 := by
      norm_num [baseState, c9InpSame, Vec3.sqNorm]
    rw [Vec3.norm, this, Real.sqrt_zero]
    norm_num

end Avoidance
